import Mathlib

/-!
# Customer service (`src/main.js`): a shallow embedding

The service is an Express application backed by a PostgreSQL connection pool.
Its effects (pool checkout and release, statements sent to the database,
console output, timers, the HTTP listener, process exit) are modelled by a
`World` that is threaded explicitly through every operation.  The behaviour of
the outside world (whether a `pool.connect()` resolves, what a statement
returns, the `PORT` variable) is an `Env` oracle, so every theorem holds for
every database behaviour.
-/

namespace CustomerService

/-! ## Values -/

/-- JavaScript values that flow through the service: JSON values plus
`undefined`.  The handlers never inspect a number, so numbers are carried as an
integer payload. -/
inductive JsVal where
  | undefined : JsVal
  | null : JsVal
  | bool (b : Bool) : JsVal
  | num (n : Int) : JsVal
  | str (s : String) : JsVal
  | arr (items : List JsVal) : JsVal
  | obj (fields : List (String × JsVal)) : JsVal

/-- A result row: a mapping from column name to value. -/
abbrev Row := List (String × JsVal)

/-- Errors that can be thrown while the service runs. -/
inductive JsError where
  /-- A `TypeError` of the language itself (destructuring `undefined`). -/
  | typeError (msg : String) : JsError
  /-- From `new Error(msg)`, thrown by the service. -/
  | error (msg : String) : JsError
  /-- An error raised by the database driver (connection or statement). -/
  | driver (detail : String) : JsError

/-- Lines written to the console. -/
inductive LogEntry where
  /-- From `console.log("Database reachable")`. -/
  | databaseReachable : LogEntry
  /-- The template "DB connect attempt (i+1)/(retries) failed — retrying in (delayMs)ms". -/
  | attemptFailed (attempt : Int) (retries : Int) (delayMs : Int) : LogEntry
  /-- The template "Customer service running on port (PORT)". -/
  | running (port : JsVal) : LogEntry
  /-- From `console.error(err)`. -/
  | error (err : JsError) : LogEntry
  /-- From `console.error("Failed to start server:", err)`. -/
  | startFailed (err : JsError) : LogEntry

/-- Observable effects, in the order in which they happen. -/
inductive Event where
  /-- A `pool.connect()` call and its outcome (`none`: a client was handed out). -/
  | connect (outcome : Option JsError) : Event
  /-- A `client.query(sql, params)` call and its outcome. -/
  | query (sql : String) (params : List JsVal) (outcome : Except JsError (List Row)) : Event
  /-- A `client.release()` call. -/
  | release : Event
  /-- A console line. -/
  | log (entry : LogEntry) : Event
  /-- A timer wait of the given number of milliseconds. -/
  | sleep (ms : Int) : Event
  /-- An `app.listen(PORT, ...)` call and its outcome (`none`: the call returned). -/
  | listen (port : JsVal) (outcome : Option JsError) : Event
  /-- From `process.exit(code)`. -/
  | exit (code : Int) : Event

/-! ## World and environment -/

/-- The state the service acts on. -/
structure World where
  /-- Connections of the pool that are checked out and not yet released. -/
  checkedOut : Nat
  /-- Number of `pool.connect()` calls made so far. -/
  connects : Nat
  /-- Number of `client.query` calls made so far. -/
  queries : Nat
  /-- Effects so far, oldest first. -/
  trace : List Event

/-- The world at process start. -/
def World.init : World :=
  { checkedOut := 0, connects := 0, queries := 0, trace := [] }

/-- The behaviour of the surroundings. -/
structure Env where
  /-- Outcome of the `n`-th `pool.connect()` call (counted from 0); `none`
  means the call resolves with a client. -/
  connect : Nat → Option JsError
  /-- Outcome of the `n`-th `client.query` call for the given statement text
  and positional parameters. -/
  query : Nat → String → List JsVal → Except JsError (List Row)
  /-- The variable `process.env.PORT`. -/
  port : Option String
  /-- Outcome of `app.listen(PORT, ...)` for the given port (`none`: the call
  returns; `some e`: it throws `e`, as for a port out of range). -/
  listen : JsVal → Option JsError

/-- Append one effect to the trace. -/
def World.emit (w : World) (e : Event) : World :=
  { w with trace := w.trace ++ [e] }

/-- The call `pool.connect()`: resolves with a client (one more connection checked out)
or rejects. -/
def poolConnect (env : Env) (w : World) : Except JsError Unit × World :=
  match env.connect w.connects with
  | none =>
    (.ok (), { w with checkedOut := w.checkedOut + 1, connects := w.connects + 1,
                      trace := w.trace ++ [Event.connect none] })
  | some e =>
    (.error e, { w with connects := w.connects + 1,
                        trace := w.trace ++ [Event.connect (some e)] })

/-- The call `client.release()`: hands the connection back to the pool. -/
def clientRelease (w : World) : World :=
  { w with checkedOut := w.checkedOut - 1, trace := w.trace ++ [Event.release] }

/-- The call `client.query(sql, params)`. -/
def clientQuery (env : Env) (sql : String) (params : List JsVal) (w : World) :
    Except JsError (List Row) × World :=
  (env.query w.queries sql params,
   { w with queries := w.queries + 1,
            trace := w.trace ++ [Event.query sql params (env.query w.queries sql params)] })

/-- The calls `console.log(...)` and `console.error(...)`. -/
def consoleWrite (entry : LogEntry) (w : World) : World :=
  w.emit (Event.log entry)

/-- The wait `await new Promise((r) => setTimeout(r, delayMs))`. -/
def sleepMs (ms : Int) (w : World) : World :=
  w.emit (Event.sleep ms)

/-! ## Startup readiness gate (`waitForDb`, lines 19-36) -/

/-- The error thrown when the retry budget is exhausted. -/
def databaseUnreachable : JsError :=
  JsError.error "Unable to connect to DB after multiple attempts"

/-- The `for (let i = 0; i < retries; i++)` loop of `waitForDb`.  `remaining` is the
number of iterations still allowed by the loop condition and `i` the loop counter. -/
def waitForDbLoop (env : Env) (retries delayMs : Int) :
    Nat → Nat → World → Except JsError Unit × World
  | 0, _, w => (.error databaseUnreachable, w)
  | remaining + 1, i, w =>
    match poolConnect env w with
    | (.ok _, w1) =>
      let w2 := clientRelease w1
      let w3 := consoleWrite LogEntry.databaseReachable w2
      (.ok (), w3)
    | (.error _, w1) =>
      let w2 := consoleWrite (LogEntry.attemptFailed ((i : Int) + 1) retries delayMs) w1
      let w3 := sleepMs delayMs w2
      waitForDbLoop env retries delayMs remaining (i + 1) w3

/-- The function `waitForDb(retries = 10, delayMs = 2000)`.  An argument that is
left out (`none`) takes its default.  The loop runs while `i < retries`, that
is `retries.toNat` times at most. -/
def waitForDb (env : Env) (retries delayMs : Option Int) (w : World) :
    Except JsError Unit × World :=
  let retries := retries.getD 10
  let delayMs := delayMs.getD 2000
  waitForDbLoop env retries delayMs retries.toNat 0 w

/-! ## Query executor (`runQuery`, lines 39-47) -/

/-- The function `runQuery(sql, params = [])`: acquire, query, and release in `finally`. -/
def runQuery (env : Env) (sql : String) (params : Option (List JsVal)) (w : World) :
    Except JsError (List Row) × World :=
  let params := params.getD []
  match poolConnect env w with
  | (.error e, w1) => (.error e, w1)
  | (.ok _, w1) =>
    match clientQuery env sql params w1 with
    | (res, w2) => (res, clientRelease w2)

/-! ## Requests and responses -/

/-- What a route handler receives from the router. -/
structure Request where
  /-- The route parameters `req.params` (always strings). -/
  params : List (String × String)
  /-- The parsed body `req.body`; `undefined` when no body was parsed. -/
  body : JsVal

/-- The expression `req.params.id`. -/
def Request.paramsId (req : Request) : JsVal :=
  match req.params.lookup "id" with
  | some s => JsVal.str s
  | none => JsVal.undefined

/-- How a handler invocation ends: it sent a response, or it threw. -/
inductive Outcome where
  | responded (status : Nat) (body : JsVal) : Outcome
  | threw (err : JsError) : Outcome

/-- Whether a value is `undefined` or `null` (destructuring such a value throws). -/
def JsVal.isNullish : JsVal → Bool
  | JsVal.undefined => true
  | JsVal.null => true
  | _ => false

/-- Property read `v.key` on a value that is not nullish: the field of an object,
`undefined` when the field is missing or the value is not an object. -/
def JsVal.getField (v : JsVal) (key : String) : JsVal :=
  match v with
  | JsVal.obj fields => (fields.lookup key).getD JsVal.undefined
  | _ => JsVal.undefined

/-- The `TypeError` of `const { ... } = req.body` on a nullish body. -/
def destructureError : JsError :=
  JsError.typeError "Cannot destructure req.body as it is undefined."

/-- The expression `rows[0]` as a JSON body: the first row, `undefined` when there is none. -/
def firstRow (rows : List Row) : JsVal :=
  match rows with
  | [] => JsVal.undefined
  | r :: _ => JsVal.obj r

/-- The rows array as a JSON body. -/
def rowsJson (rows : List Row) : JsVal :=
  JsVal.arr (rows.map JsVal.obj)

/-- The body `{ error: msg }`. -/
def errorBody (msg : String) : JsVal :=
  JsVal.obj [("error", JsVal.str msg)]

/-! ## Statements (the string literals of lines 58, 71, 86, 102, 116-118) -/

def sqlListCustomers : String :=
  "SELECT customer_id, name, email, phone, created_at FROM customer_schema.customers ORDER BY customer_id;"

def sqlGetCustomer : String :=
  "SELECT * FROM customer_schema.customers WHERE customer_id = $1"

def sqlInsertCustomer : String :=
  "INSERT INTO customer_schema.customers (name, email, phone) VALUES ($1, $2, $3) RETURNING *"

def sqlListAddresses : String :=
  "SELECT * FROM customer_schema.addresses WHERE customer_id = $1"

def sqlInsertAddress : String :=
  "INSERT INTO customer_schema.addresses (customer_id, line1, area, city, pincode)\n       VALUES ($1, $2, $3, $4, $5)\n       RETURNING *"

/-! ## Route handlers (lines 52-126) -/

/-- Handler of `GET /healthz`. -/
def healthz (_env : Env) (_req : Request) (w : World) : Outcome × World :=
  (Outcome.responded 200 (JsVal.obj [("status", JsVal.str "ok")]), w)

/-- Handler of `GET /v1/customers`. -/
def listCustomers (env : Env) (_req : Request) (w : World) : Outcome × World :=
  match runQuery env sqlListCustomers none w with
  | (.ok rows, w1) => (Outcome.responded 200 (rowsJson rows), w1)
  | (.error err, w1) =>
    let w2 := consoleWrite (LogEntry.error err) w1
    (Outcome.responded 500 (errorBody "Failed to fetch customers"), w2)

/-- Handler of `GET /v1/customers/:id`. -/
def getCustomer (env : Env) (req : Request) (w : World) : Outcome × World :=
  match runQuery env sqlGetCustomer (some [req.paramsId]) w with
  | (.ok rows, w1) =>
    if rows.length = 0 then (Outcome.responded 404 (errorBody "Not found"), w1)
    else (Outcome.responded 200 (firstRow rows), w1)
  | (.error _, w1) => (Outcome.responded 500 (errorBody "Failed to fetch customer"), w1)

/-- Handler of `POST /v1/customers`.  The destructuring of `req.body` stands before
the `try` block. -/
def createCustomer (env : Env) (req : Request) (w : World) : Outcome × World :=
  if req.body.isNullish then (Outcome.threw destructureError, w)
  else
    let name := req.body.getField "name"
    let email := req.body.getField "email"
    let phone := req.body.getField "phone"
    match runQuery env sqlInsertCustomer (some [name, email, phone]) w with
    | (.ok rows, w1) => (Outcome.responded 201 (firstRow rows), w1)
    | (.error err, w1) =>
      let w2 := consoleWrite (LogEntry.error err) w1
      (Outcome.responded 500 (errorBody "Insert failed"), w2)

/-- Handler of `GET /v1/customers/:id/addresses`. -/
def listAddresses (env : Env) (req : Request) (w : World) : Outcome × World :=
  match runQuery env sqlListAddresses (some [req.paramsId]) w with
  | (.ok rows, w1) => (Outcome.responded 200 (rowsJson rows), w1)
  | (.error _, w1) => (Outcome.responded 500 (errorBody "Failed to fetch addresses"), w1)

/-- Handler of `POST /v1/customers/:id/addresses`.  The destructuring of `req.body`
stands before the `try` block. -/
def addAddress (env : Env) (req : Request) (w : World) : Outcome × World :=
  if req.body.isNullish then (Outcome.threw destructureError, w)
  else
    let line1 := req.body.getField "line1"
    let area := req.body.getField "area"
    let city := req.body.getField "city"
    let pincode := req.body.getField "pincode"
    match runQuery env sqlInsertAddress (some [req.paramsId, line1, area, city, pincode]) w with
    | (.ok rows, w1) => (Outcome.responded 201 (firstRow rows), w1)
    | (.error err, w1) =>
      let w2 := consoleWrite (LogEntry.error err) w1
      (Outcome.responded 500 (errorBody "Insert failed"), w2)

/-- The routes registered on the application. -/
inductive Route where
  | healthz : Route
  | listCustomers : Route
  | getCustomer : Route
  | createCustomer : Route
  | listAddresses : Route
  | addAddress : Route

/-- The router: run the handler registered for a route. -/
def handle (route : Route) (env : Env) (req : Request) (w : World) : Outcome × World :=
  match route with
  | Route.healthz => healthz env req w
  | Route.listCustomers => listCustomers env req w
  | Route.getCustomer => getCustomer env req w
  | Route.createCustomer => createCustomer env req w
  | Route.listAddresses => listAddresses env req w
  | Route.addAddress => addAddress env req w

/-! ## Startup sequence (lines 129-143) -/

/-- The expression `process.env.PORT || 3000` (an empty string is falsy). -/
def portOf (env : Env) : JsVal :=
  match env.port with
  | some s => if s = "" then JsVal.num 3000 else JsVal.str s
  | none => JsVal.num 3000

/-- The startup function: wait for the database, then listen; on any error log it
and exit with status 1. -/
def startup (env : Env) (w : World) : World :=
  match waitForDb env (some 15) (some 2000) w with
  | (.ok _, w1) =>
    match env.listen (portOf env) with
    | none =>
      let w2 := w1.emit (Event.listen (portOf env) none)
      consoleWrite (LogEntry.running (portOf env)) w2
    | some err =>
      let w2 := w1.emit (Event.listen (portOf env) (some err))
      let w3 := consoleWrite (LogEntry.startFailed err) w2
      w3.emit (Event.exit 1)
  | (.error err, w1) =>
    let w2 := consoleWrite (LogEntry.startFailed err) w1
    w2.emit (Event.exit 1)

/-! ## Observations on traces -/

/-- The effects that happened between two worlds of one run. -/
def eventsSince (before after : World) : List Event :=
  after.trace.drop before.trace.length

/-- Whether an effect is a `pool.connect()` call. -/
def Event.isConnect : Event → Bool
  | Event.connect _ => true
  | _ => false

/-- Whether an effect is a `client.release()` call. -/
def Event.isRelease : Event → Bool
  | Event.release => true
  | _ => false

/-- Whether an effect is an `app.listen` call. -/
def Event.isListen : Event → Bool
  | Event.listen _ _ => true
  | _ => false

/-- The attempt number of a failed-attempt log line. -/
def Event.failedAttempt? : Event → Option Int
  | Event.log (LogEntry.attemptFailed n _ _) => some n
  | _ => none

/-- The duration of a timer wait. -/
def Event.sleep? : Event → Option Int
  | Event.sleep ms => some ms
  | _ => none

/-- The statement text and parameters of a `client.query` call. -/
def Event.statement? : Event → Option (String × List JsVal)
  | Event.query sql params _ => some (sql, params)
  | _ => none

/-- The error of a `console.error(err)` line. -/
def Event.loggedError? : Event → Option JsError
  | Event.log (LogEntry.error err) => some err
  | _ => none

/-- Number of `pool.connect()` calls in a trace. -/
def connectAttempts (es : List Event) : Nat :=
  es.countP Event.isConnect

/-- Number of `client.release()` calls in a trace. -/
def releases (es : List Event) : Nat :=
  es.countP Event.isRelease

/-- The attempt numbers of the failed-attempt log lines of a trace, in order. -/
def failedAttemptLogs (es : List Event) : List Int :=
  es.filterMap Event.failedAttempt?

/-- The timer waits of a trace, in order. -/
def sleeps (es : List Event) : List Int :=
  es.filterMap Event.sleep?

/-- The statements issued in a trace with their parameters, in order. -/
def statements (es : List Event) : List (String × List JsVal) :=
  es.filterMap Event.statement?

/-- The errors written with `console.error(err)` in a trace, in order. -/
def loggedErrors (es : List Event) : List JsError :=
  es.filterMap Event.loggedError?

/-- Whether `app.listen` was called in a trace. -/
def listenCalled (es : List Event) : Bool :=
  es.any Event.isListen

/-- Whether every timer wait of a trace is directly followed by a further
`pool.connect()` attempt. -/
def sleepsOnlyBeforeRetry : List Event → Bool
  | [] => true
  | Event.sleep _ :: Event.connect o :: es => sleepsOnlyBeforeRetry (Event.connect o :: es)
  | Event.sleep _ :: _ => false
  | _ :: es => sleepsOnlyBeforeRetry es

/-- Whether `runQuery` raised `err` in a trace: the acquisition or the statement failed
with it. -/
def RaisedByRunQuery (err : JsError) (es : List Event) : Prop :=
  Event.connect (some err) ∈ es ∨ ∃ sql params, Event.query sql params (.error err) ∈ es

/-- The effects of `m` consecutive failed rounds of the `waitForDb` loop, the first
of them being `pool.connect()` call number `c` and loop iteration `i`. -/
def failureEvents (env : Env) (retries delayMs : Int) : Nat → Nat → Nat → List Event
  | 0, _, _ => []
  | m + 1, c, i =>
    Event.connect (env.connect c)
      :: Event.log (LogEntry.attemptFailed ((i : Int) + 1) retries delayMs)
      :: Event.sleep delayMs
      :: failureEvents env retries delayMs m (c + 1) (i + 1)

/-- The message of the 500 response of each database-backed route (lines 63, 77, 92,
107 and 124); `GET /healthz` has no failure response. -/
def failureMessage : Route → String
  | Route.healthz => ""
  | Route.listCustomers => "Failed to fetch customers"
  | Route.getCustomer => "Failed to fetch customer"
  | Route.createCustomer => "Insert failed"
  | Route.listAddresses => "Failed to fetch addresses"
  | Route.addAddress => "Insert failed"

/-- The statement text each database-backed route passes to `runQuery`. -/
def statementOf : Route → String
  | Route.healthz => ""
  | Route.listCustomers => sqlListCustomers
  | Route.getCustomer => sqlGetCustomer
  | Route.createCustomer => sqlInsertCustomer
  | Route.listAddresses => sqlListAddresses
  | Route.addAddress => sqlInsertAddress

/-- The request values each route passes to `runQuery` as positional parameters. -/
def positionalParams (route : Route) (req : Request) : List JsVal :=
  match route with
  | Route.healthz => []
  | Route.listCustomers => []
  | Route.getCustomer => [req.paramsId]
  | Route.createCustomer =>
    [req.body.getField "name", req.body.getField "email", req.body.getField "phone"]
  | Route.listAddresses => [req.paramsId]
  | Route.addAddress =>
    [req.paramsId, req.body.getField "line1", req.body.getField "area",
     req.body.getField "city", req.body.getField "pincode"]

/-- Whether a statement text is an `INSERT INTO ...` that ends in `RETURNING *`. -/
def isInsertReturning (sql : String) : Bool :=
  "INSERT INTO ".toList.isPrefixOf sql.toList && "RETURNING *".toList.isSuffixOf sql.toList

/-! ## Concrete scenarios -/

/-- The error of a refused connection. -/
def connRefused : JsError :=
  JsError.driver "ECONNREFUSED"

/-- A database that is never reachable. -/
def envDown : Env :=
  { connect := fun _ => some connRefused
    query := fun _ _ _ => .error connRefused
    port := none
    listen := fun _ => none }

/-- A database that becomes reachable on the third connection attempt and holds no rows. -/
def envReadyOnThird : Env :=
  { connect := fun n => if n < 2 then some connRefused else none
    query := fun _ _ _ => .ok []
    port := none
    listen := fun _ => none }

/-- A healthy database in which every statement returns no rows. -/
def envNoRows : Env :=
  { connect := fun _ => none
    query := fun _ _ _ => .ok []
    port := none
    listen := fun _ => none }

/-- A reachable database in which every statement fails with the given detail. -/
def envQueryFails (detail : String) : Env :=
  { connect := fun _ => none
    query := fun _ _ _ => .error (JsError.driver detail)
    port := none
    listen := fun _ => none }

/-- The row the database hands back for customer Ann. -/
def annRow : Row :=
  [("customer_id", JsVal.num 1), ("name", JsVal.str "Ann"), ("email", JsVal.str "ann@x.com"),
   ("phone", JsVal.str "555"), ("created_at", JsVal.str "2024-01-01T00:00:00.000Z")]

/-- A healthy database in which every statement returns the row of customer Ann. -/
def envAnn : Env :=
  { connect := fun _ => none
    query := fun _ _ _ => .ok [annRow]
    port := none
    listen := fun _ => none }

/-- A request with the given path id and body. -/
def mkRequest (id : String) (body : JsVal) : Request :=
  { params := [("id", id)], body := body }

/-! ## Lemmas on traces -/

theorem eventsSince_append (w w1 : World) (es : List Event) (h : w1.trace = w.trace ++ es) :
    eventsSince w w1 = es := by
  simp [eventsSince, h]

theorem connectAttempts_append (a b : List Event) :
    connectAttempts (a ++ b) = connectAttempts a + connectAttempts b := by
  simp [connectAttempts]

theorem releases_append (a b : List Event) :
    releases (a ++ b) = releases a + releases b := by
  simp [releases]

theorem sleeps_append (a b : List Event) : sleeps (a ++ b) = sleeps a ++ sleeps b := by
  simp [sleeps]

theorem failedAttemptLogs_append (a b : List Event) :
    failedAttemptLogs (a ++ b) = failedAttemptLogs a ++ failedAttemptLogs b := by
  simp [failedAttemptLogs]

theorem listenCalled_append (a b : List Event) :
    listenCalled (a ++ b) = (listenCalled a || listenCalled b) := by
  simp [listenCalled]

theorem connectAttempts_failureEvents (env : Env) (r d : Int) (m c i : Nat) :
    connectAttempts (failureEvents env r d m c i) = m := by
  induction m generalizing c i with
  | zero => rfl
  | succ m ih =>
    have := ih (c + 1) (i + 1)
    simp only [connectAttempts] at this
    simp [failureEvents, connectAttempts, Event.isConnect, this]

theorem releases_failureEvents (env : Env) (r d : Int) (m c i : Nat) :
    releases (failureEvents env r d m c i) = 0 := by
  induction m generalizing c i with
  | zero => rfl
  | succ m ih =>
    have := ih (c + 1) (i + 1)
    simp only [releases] at this
    simp [failureEvents, releases, Event.isRelease, this]

theorem sleeps_failureEvents (env : Env) (r d : Int) (m c i : Nat) :
    sleeps (failureEvents env r d m c i) = List.replicate m d := by
  induction m generalizing c i with
  | zero => rfl
  | succ m ih =>
    have := ih (c + 1) (i + 1)
    simp only [sleeps] at this
    simp [failureEvents, sleeps, Event.sleep?, this, List.replicate_succ]

theorem failedAttemptLogs_failureEvents (env : Env) (r d : Int) (m c i : Nat) :
    failedAttemptLogs (failureEvents env r d m c i)
      = (List.range m).map (fun j => ((i + j : Nat) : Int) + 1) := by
  induction m generalizing c i with
  | zero => rfl
  | succ m ih =>
    have := ih (c + 1) (i + 1)
    simp only [failedAttemptLogs] at this
    simp only [failureEvents, failedAttemptLogs, List.filterMap_cons, Event.failedAttempt?, this,
      List.range_succ_eq_map, List.map_cons, List.map_map]
    simp only [Nat.add_zero, List.cons.injEq, true_and]
    apply List.map_congr_left
    intro j _
    simp only [Function.comp]
    congr 2
    omega

theorem listenCalled_failureEvents (env : Env) (r d : Int) (m c i : Nat) :
    listenCalled (failureEvents env r d m c i) = false := by
  induction m generalizing c i with
  | zero => rfl
  | succ m ih =>
    have := ih (c + 1) (i + 1)
    simp only [listenCalled] at this
    simp [failureEvents, listenCalled, Event.isListen, this]

/-! ## Lemmas on the readiness gate -/

theorem waitForDbLoop_all_fail (env : Env) (r d : Int) :
    ∀ (n i : Nat) (w : World), (∀ j, j < n → env.connect (w.connects + j) ≠ none) →
      waitForDbLoop env r d n i w
        = (.error databaseUnreachable,
           { w with connects := w.connects + n,
                    trace := w.trace ++ failureEvents env r d n w.connects i }) := by
  intro n
  induction n with
  | zero =>
    intro i w _
    simp [waitForDbLoop, failureEvents]
  | succ n ih =>
    intro i w h
    have h0 := h 0 (Nat.succ_pos n)
    rw [Nat.add_zero] at h0
    obtain ⟨e, he⟩ := Option.ne_none_iff_exists'.mp h0
    have hrest : ∀ j, j < n → env.connect (w.connects + 1 + j) ≠ none := by
      intro j hj
      have := h (j + 1) (Nat.succ_lt_succ hj)
      rwa [show w.connects + (j + 1) = w.connects + 1 + j by omega] at this
    simp only [waitForDbLoop, poolConnect, he, consoleWrite, sleepMs, World.emit]
    rw [ih]
    · simp [failureEvents, he, Nat.add_assoc, Nat.add_comm 1 n]
    · exact hrest

theorem waitForDbLoop_success_at (env : Env) (r d : Int) :
    ∀ (m n i : Nat) (w : World), m < n →
      (∀ j, j < m → env.connect (w.connects + j) ≠ none) →
      env.connect (w.connects + m) = none →
      waitForDbLoop env r d n i w
        = (.ok (),
           { w with checkedOut := w.checkedOut + 1 - 1,
                    connects := w.connects + m + 1,
                    trace := w.trace ++ (failureEvents env r d m w.connects i
                      ++ [Event.connect none, Event.release,
                          Event.log LogEntry.databaseReachable]) }) := by
  intro m
  induction m with
  | zero =>
    intro n i w hn _ hok
    obtain ⟨n, rfl⟩ : ∃ n', n = n' + 1 := ⟨n - 1, by omega⟩
    rw [Nat.add_zero] at hok
    simp [waitForDbLoop, poolConnect, hok, clientRelease, consoleWrite, World.emit,
      failureEvents]
  | succ m ih =>
    intro n i w hn h hok
    obtain ⟨n, rfl⟩ : ∃ n', n = n' + 1 := ⟨n - 1, by omega⟩
    have h0 := h 0 (Nat.succ_pos m)
    rw [Nat.add_zero] at h0
    obtain ⟨e, he⟩ := Option.ne_none_iff_exists'.mp h0
    have hrest : ∀ j, j < m → env.connect (w.connects + 1 + j) ≠ none := by
      intro j hj
      have := h (j + 1) (Nat.succ_lt_succ hj)
      rwa [show w.connects + (j + 1) = w.connects + 1 + j by omega] at this
    have hok1 : env.connect (w.connects + 1 + m) = none := by
      rwa [show w.connects + (m + 1) = w.connects + 1 + m by omega] at hok
    simp only [waitForDbLoop, poolConnect, he, consoleWrite, sleepMs, World.emit]
    rw [ih n (i + 1) _ (by omega) hrest hok1]
    simp [failureEvents, he, Nat.add_assoc, Nat.add_comm 1 m]

/-- If the loop ends with an error, every attempt it was allowed has failed. -/
theorem waitForDbLoop_error_all_fail (env : Env) (r d : Int) (n i : Nat) (w : World)
    (e : JsError) (h : (waitForDbLoop env r d n i w).1 = .error e) :
    ∀ j, j < n → env.connect (w.connects + j) ≠ none := by
  by_contra hcon
  push_neg at hcon
  have hex : ∃ j, j < n ∧ env.connect (w.connects + j) = none := hcon
  classical
  let m := Nat.find hex
  have hm : m < n ∧ env.connect (w.connects + m) = none := Nat.find_spec hex
  have hmin : ∀ j, j < m → env.connect (w.connects + j) ≠ none := by
    intro j hj hnone
    exact Nat.find_min hex hj ⟨lt_trans hj hm.1, hnone⟩
  rw [waitForDbLoop_success_at env r d m n i w hm.1 hmin hm.2] at h
  cases h

/-! ## The readiness gate: claims -/

/-- C2: when the first successful connection is attempt `k` with `1 ≤ k ≤ maxAttempts`,
`waitForDb(maxAttempts, delayMs)` returns normally after exactly `k` connection attempts,
logs the failed attempts `1, ..., k-1` in order, waits `delayMs` exactly `k-1` times, and
releases the one connection it acquired, leaving the pool as it found it. -/
theorem waitForDb_first_success (env : Env) (maxAttempts delayMs : Int) (w : World) (k : Nat)
    (hk : 1 ≤ k) (hle : (k : Int) ≤ maxAttempts)
    (hfail : ∀ j, j + 1 < k → env.connect (w.connects + j) ≠ none)
    (hok : env.connect (w.connects + (k - 1)) = none) :
    (waitForDb env (some maxAttempts) (some delayMs) w).1 = .ok () ∧
    eventsSince w (waitForDb env (some maxAttempts) (some delayMs) w).2
      = failureEvents env maxAttempts delayMs (k - 1) w.connects 0
          ++ [Event.connect none, Event.release, Event.log LogEntry.databaseReachable] ∧
    connectAttempts (eventsSince w (waitForDb env (some maxAttempts) (some delayMs) w).2) = k ∧
    failedAttemptLogs (eventsSince w (waitForDb env (some maxAttempts) (some delayMs) w).2)
      = (List.range (k - 1)).map (fun (j : Nat) => (j : Int) + 1) ∧
    sleeps (eventsSince w (waitForDb env (some maxAttempts) (some delayMs) w).2)
      = List.replicate (k - 1) delayMs ∧
    releases (eventsSince w (waitForDb env (some maxAttempts) (some delayMs) w).2) = 1 ∧
    (waitForDb env (some maxAttempts) (some delayMs) w).2.checkedOut = w.checkedOut := by
  have hlt : k - 1 < maxAttempts.toNat := by omega
  have hfail1 : ∀ j, j < k - 1 → env.connect (w.connects + j) ≠ none := by
    intro j hj
    exact hfail j (by omega)
  have hrun := waitForDbLoop_success_at env maxAttempts delayMs (k - 1) maxAttempts.toNat 0 w
    hlt hfail1 hok
  have hev : eventsSince w (waitForDb env (some maxAttempts) (some delayMs) w).2
      = failureEvents env maxAttempts delayMs (k - 1) w.connects 0
          ++ [Event.connect none, Event.release, Event.log LogEntry.databaseReachable] := by
    apply eventsSince_append
    simp [waitForDb, hrun]
  refine ⟨by simp [waitForDb, hrun], hev, ?_, ?_, ?_, ?_, by simp [waitForDb, hrun]⟩
  · rw [hev, connectAttempts_append, connectAttempts_failureEvents]
    simp [connectAttempts, Event.isConnect]
    omega
  · have hnil : failedAttemptLogs
        [Event.connect none, Event.release, Event.log LogEntry.databaseReachable] = [] := rfl
    rw [hev, failedAttemptLogs_append, failedAttemptLogs_failureEvents, hnil, List.append_nil]
    apply List.map_congr_left
    intro j _
    simp
  · rw [hev, sleeps_append, sleeps_failureEvents]
    simp [sleeps, Event.sleep?]
  · rw [hev, releases_append, releases_failureEvents]
    simp [releases, Event.isRelease]

/-- The instance of C2 given in the specification: a database that becomes reachable on
the 3rd of 15 attempts, 2000 ms apart, gives exactly the two failure lines 1 and 2. -/
theorem waitForDb_first_success_witness :
    (waitForDb envReadyOnThird (some 15) (some 2000) World.init).1 = .ok () ∧
    connectAttempts
      (eventsSince World.init (waitForDb envReadyOnThird (some 15) (some 2000) World.init).2) = 3 ∧
    failedAttemptLogs
      (eventsSince World.init (waitForDb envReadyOnThird (some 15) (some 2000) World.init).2)
        = [1, 2] ∧
    sleeps
      (eventsSince World.init (waitForDb envReadyOnThird (some 15) (some 2000) World.init).2)
        = [2000, 2000] ∧
    releases
      (eventsSince World.init (waitForDb envReadyOnThird (some 15) (some 2000) World.init).2) = 1 := by
  have h := waitForDb_first_success envReadyOnThird 15 2000 World.init 3 (by decide) (by decide)
    (by
      intro j hj
      have hj2 : j < 2 := by omega
      simp [envReadyOnThird, World.init, hj2])
    (by simp [envReadyOnThird, World.init])
  refine ⟨h.1, h.2.2.1, ?_, ?_, h.2.2.2.2.2.1⟩
  · rw [h.2.2.2.1]
    rfl
  · rw [h.2.2.2.2.1]
    rfl

/-- C3 (as the code has it): for `maxAttempts ≥ 0`, `waitForDb(maxAttempts, delayMs)` throws the
database-unreachable error exactly when each of the first `maxAttempts` connection attempts
fails; it has then made exactly `maxAttempts` attempts, logged each of them with its number,
released nothing, and waited `delayMs` after every failed attempt, the last one included. -/
theorem waitForDb_exhausted_iff (env : Env) (maxAttempts delayMs : Int) (w : World)
    (h0 : 0 ≤ maxAttempts) :
    ((waitForDb env (some maxAttempts) (some delayMs) w).1 = .error databaseUnreachable ↔
      ∀ j : Nat, (j : Int) < maxAttempts → env.connect (w.connects + j) ≠ none) ∧
    ((waitForDb env (some maxAttempts) (some delayMs) w).1 = .error databaseUnreachable →
      eventsSince w (waitForDb env (some maxAttempts) (some delayMs) w).2
        = failureEvents env maxAttempts delayMs maxAttempts.toNat w.connects 0 ∧
      (connectAttempts (eventsSince w (waitForDb env (some maxAttempts) (some delayMs) w).2) : Int)
        = maxAttempts ∧
      failedAttemptLogs (eventsSince w (waitForDb env (some maxAttempts) (some delayMs) w).2)
        = (List.range maxAttempts.toNat).map (fun (j : Nat) => (j : Int) + 1) ∧
      sleeps (eventsSince w (waitForDb env (some maxAttempts) (some delayMs) w).2)
        = List.replicate maxAttempts.toNat delayMs ∧
      releases (eventsSince w (waitForDb env (some maxAttempts) (some delayMs) w).2) = 0 ∧
      (waitForDb env (some maxAttempts) (some delayMs) w).2.checkedOut = w.checkedOut) := by
  have hall : (waitForDb env (some maxAttempts) (some delayMs) w).1 = .error databaseUnreachable →
      ∀ j, j < maxAttempts.toNat → env.connect (w.connects + j) ≠ none := by
    intro herr
    exact waitForDbLoop_error_all_fail env maxAttempts delayMs maxAttempts.toNat 0 w _ herr
  refine ⟨⟨?_, ?_⟩, ?_⟩
  · intro herr j hj
    exact hall herr j (by omega)
  · intro hdown
    have hrun := waitForDbLoop_all_fail env maxAttempts delayMs maxAttempts.toNat 0 w
      (fun j hj => hdown j (by omega))
    simp [waitForDb, hrun]
  · intro herr
    have hrun := waitForDbLoop_all_fail env maxAttempts delayMs maxAttempts.toNat 0 w (hall herr)
    have hev : eventsSince w (waitForDb env (some maxAttempts) (some delayMs) w).2
        = failureEvents env maxAttempts delayMs maxAttempts.toNat w.connects 0 := by
      apply eventsSince_append
      simp [waitForDb, hrun]
    refine ⟨hev, ?_, ?_, ?_, ?_, by simp [waitForDb, hrun]⟩
    · rw [hev, connectAttempts_failureEvents]
      omega
    · rw [hev, failedAttemptLogs_failureEvents]
      apply List.map_congr_left
      intro j _
      simp
    · rw [hev, sleeps_failureEvents]
    · rw [hev, releases_failureEvents]

/-- An instance of the amended C3: a budget of two attempts against an unreachable database is
exhausted after two attempts, two failure lines and two waits. -/
theorem waitForDb_exhausted_iff_witness :
    (0 : Int) ≤ 2 ∧
    (waitForDb envDown (some 2) (some 2000) World.init).1 = .error databaseUnreachable ∧
    sleeps (eventsSince World.init (waitForDb envDown (some 2) (some 2000) World.init).2)
      = [2000, 2000] := by
  have h := waitForDb_exhausted_iff envDown 2 2000 World.init (by decide)
  have herr : (waitForDb envDown (some 2) (some 2000) World.init).1
      = .error databaseUnreachable :=
    h.1.mpr (by intro j _; simp [envDown])
  refine ⟨by decide, herr, ?_⟩
  rw [(h.2 herr).2.2.2.1]
  rfl

/-- C3 as stated fails: with a budget of one attempt against an unreachable database the gate
waits 2000 ms after its only attempt and then throws, so this wait is followed by no retry. -/
theorem waitForDb_waits_after_last_failure :
    (waitForDb envDown (some 1) (some 2000) World.init).1 = .error databaseUnreachable ∧
    eventsSince World.init (waitForDb envDown (some 1) (some 2000) World.init).2
      = [Event.connect (some connRefused), Event.log (LogEntry.attemptFailed 1 1 2000),
         Event.sleep 2000] ∧
    sleepsOnlyBeforeRetry
      (eventsSince World.init (waitForDb envDown (some 1) (some 2000) World.init).2) = false ∧
    connectAttempts
      (eventsSince World.init (waitForDb envDown (some 1) (some 2000) World.init).2) = 1 ∧
    (sleeps
      (eventsSince World.init (waitForDb envDown (some 1) (some 2000) World.init).2)).length = 1 :=
  ⟨rfl, rfl, rfl, rfl, rfl⟩

/-- C4 as stated fails: against an unreachable database `waitForDb()` gives up after 10
connection attempts, `waitForDb(15, 2000)` after 15. -/
theorem waitForDb_default_is_not_fifteen :
    (waitForDb envDown none none World.init).2.connects = 10 ∧
    (waitForDb envDown (some 15) (some 2000) World.init).2.connects = 15 ∧
    waitForDb envDown none none World.init
      ≠ waitForDb envDown (some 15) (some 2000) World.init := by
  have h10 : (waitForDb envDown none none World.init).2.connects = 10 := rfl
  have h15 : (waitForDb envDown (some 15) (some 2000) World.init).2.connects = 15 := rfl
  refine ⟨h10, h15, ?_⟩
  intro heq
  rw [heq, h15] at h10
  exact absurd h10 (by decide)

/-- C4 (as the code has it): `waitForDb()` behaves as `waitForDb(10, 2000)`; the startup
sequence passes the budget `(15, 2000)` explicitly, and when that budget is exhausted the gate
has made 15 attempts and waited 15 times 2000 ms, 30000 ms in total, before startup logs the
failure and exits. -/
theorem waitForDb_default_budget (env : Env) (w : World)
    (hdown : ∀ j, j < 15 → env.connect (w.connects + j) ≠ none) :
    (∀ (env1 : Env) (w1 : World),
      waitForDb env1 none none w1 = waitForDb env1 (some 10) (some 2000) w1) ∧
    eventsSince w (startup env w)
      = eventsSince w (waitForDb env (some 15) (some 2000) w).2
          ++ [Event.log (LogEntry.startFailed databaseUnreachable), Event.exit 1] ∧
    connectAttempts (eventsSince w (waitForDb env (some 15) (some 2000) w).2) = 15 ∧
    sleeps (eventsSince w (waitForDb env (some 15) (some 2000) w).2) = List.replicate 15 2000 ∧
    (sleeps (eventsSince w (waitForDb env (some 15) (some 2000) w).2)).sum = 30000 := by
  have hrun := waitForDbLoop_all_fail env 15 2000 15 0 w hdown
  have hwait : waitForDb env (some 15) (some 2000) w
      = (.error databaseUnreachable,
         { w with connects := w.connects + 15,
                  trace := w.trace ++ failureEvents env 15 2000 15 w.connects 0 }) := by
    simp only [waitForDb, Option.getD_some]
    exact hrun
  have hev : eventsSince w (waitForDb env (some 15) (some 2000) w).2
      = failureEvents env 15 2000 15 w.connects 0 := by
    apply eventsSince_append
    rw [hwait]
  have hsl : sleeps (eventsSince w (waitForDb env (some 15) (some 2000) w).2)
      = List.replicate 15 2000 := by
    rw [hev, sleeps_failureEvents]
  refine ⟨fun _ _ => rfl, ?_, ?_, hsl, ?_⟩
  · rw [hev]
    apply eventsSince_append
    simp [startup, hwait, consoleWrite, World.emit]
  · rw [hev, connectAttempts_failureEvents]
  · rw [hsl]
    rfl

/-- An instance of the amended C4: an unreachable database at process start. -/
theorem waitForDb_default_budget_witness :
    (∀ j, j < 15 → envDown.connect (World.init.connects + j) ≠ none) ∧
    waitForDb envDown none none World.init
      = waitForDb envDown (some 10) (some 2000) World.init ∧
    (sleeps (eventsSince World.init
      (waitForDb envDown (some 15) (some 2000) World.init).2)).sum = 30000 := by
  have hdown : ∀ j, j < 15 → envDown.connect (World.init.connects + j) ≠ none := by
    intro j _
    simp [envDown]
  have h := waitForDb_default_budget envDown World.init hdown
  exact ⟨hdown, h.1 envDown World.init, h.2.2.2.2⟩

/-- The gate either exhausts its budget after failing every allowed attempt, or succeeds at
its first successful attempt. -/
theorem waitForDbLoop_cases (env : Env) (r d : Int) (n i : Nat) (w : World) :
    (waitForDbLoop env r d n i w
        = (.error databaseUnreachable,
           { w with connects := w.connects + n,
                    trace := w.trace ++ failureEvents env r d n w.connects i })) ∨
    (∃ m, m < n ∧ waitForDbLoop env r d n i w
        = (.ok (),
           { w with checkedOut := w.checkedOut + 1 - 1,
                    connects := w.connects + m + 1,
                    trace := w.trace ++ (failureEvents env r d m w.connects i
                      ++ [Event.connect none, Event.release,
                          Event.log LogEntry.databaseReachable]) })) := by
  by_cases hall : ∀ j, j < n → env.connect (w.connects + j) ≠ none
  · exact Or.inl (waitForDbLoop_all_fail env r d n i w hall)
  · right
    push_neg at hall
    have hex : ∃ j, j < n ∧ env.connect (w.connects + j) = none := hall
    classical
    have hm : Nat.find hex < n ∧ env.connect (w.connects + Nat.find hex) = none :=
      Nat.find_spec hex
    have hmin : ∀ j, j < Nat.find hex → env.connect (w.connects + j) ≠ none := by
      intro j hj hnone
      exact Nat.find_min hex hj ⟨lt_trans hj hm.1, hnone⟩
    exact ⟨Nat.find hex, hm.1, waitForDbLoop_success_at env r d _ n i w hm.1 hmin hm.2⟩

/-- The gate only appends effects, never calls `app.listen`, and ends normally or with the
database-unreachable error. -/
theorem waitForDb_events (env : Env) (r d : Option Int) (w : World) :
    ∃ es, (waitForDb env r d w).2.trace = w.trace ++ es ∧ listenCalled es = false ∧
      ((waitForDb env r d w).1 = .ok () ∨
        (waitForDb env r d w).1 = .error databaseUnreachable) := by
  rcases waitForDbLoop_cases env (r.getD 10) (d.getD 2000) (r.getD 10).toNat 0 w with h | ⟨m, _, h⟩
  · refine ⟨failureEvents env (r.getD 10) (d.getD 2000) (r.getD 10).toNat w.connects 0, ?_,
      listenCalled_failureEvents env (r.getD 10) (d.getD 2000) _ w.connects 0, ?_⟩
    · simp only [waitForDb, h]
    · right
      simp only [waitForDb, h]
  · refine ⟨failureEvents env (r.getD 10) (d.getD 2000) m w.connects 0
        ++ [Event.connect none, Event.release, Event.log LogEntry.databaseReachable], ?_, ?_, ?_⟩
    · simp only [waitForDb, h]
    · rw [listenCalled_append, listenCalled_failureEvents]
      rfl
    · left
      simp only [waitForDb, h]

/-! ## The startup sequence: claims -/

/-- C7: the startup sequence calls `app.listen` exactly when `waitForDb(15, 2000)` succeeded
and never during the gate; when the gate exhausts its budget, startup logs the failure and
exits with status 1 without calling `app.listen`. -/
theorem startup_listens_iff (env : Env) (w : World) :
    (listenCalled (eventsSince w (startup env w)) = true ↔
      (waitForDb env (some 15) (some 2000) w).1 = .ok ()) ∧
    listenCalled (eventsSince w (waitForDb env (some 15) (some 2000) w).2) = false ∧
    (∃ rest, eventsSince w (startup env w)
      = eventsSince w (waitForDb env (some 15) (some 2000) w).2 ++ rest) ∧
    ((waitForDb env (some 15) (some 2000) w).1 = .error databaseUnreachable →
      eventsSince w (startup env w)
        = eventsSince w (waitForDb env (some 15) (some 2000) w).2
            ++ [Event.log (LogEntry.startFailed databaseUnreachable), Event.exit 1] ∧
      listenCalled (eventsSince w (startup env w)) = false) := by
  obtain ⟨es, htr, hno, hres⟩ := waitForDb_events env (some 15) (some 2000) w
  have hev : eventsSince w (waitForDb env (some 15) (some 2000) w).2 = es :=
    eventsSince_append _ _ _ htr
  rcases hg : waitForDb env (some 15) (some 2000) w with ⟨res, w1⟩
  rw [hg] at htr hres hev
  simp only at htr hres
  rcases hres with hres | hres
  · subst hres
    cases hl : env.listen (portOf env) with
    | none =>
      have hs : eventsSince w (startup env w)
          = es ++ [Event.listen (portOf env) none,
                   Event.log (LogEntry.running (portOf env))] := by
        apply eventsSince_append
        simp [startup, hg, hl, consoleWrite, World.emit, htr]
      rw [hs, hev]
      refine ⟨by simp [listenCalled, Event.isListen], hno, ⟨_, rfl⟩, ?_⟩
      intro h
      cases h
    | some err =>
      have hs : eventsSince w (startup env w)
          = es ++ [Event.listen (portOf env) (some err),
                   Event.log (LogEntry.startFailed err), Event.exit 1] := by
        apply eventsSince_append
        simp [startup, hg, hl, consoleWrite, World.emit, htr]
      rw [hs, hev]
      refine ⟨by simp [listenCalled, Event.isListen], hno, ⟨_, rfl⟩, ?_⟩
      intro h
      cases h
  · subst hres
    have hs : eventsSince w (startup env w)
        = es ++ [Event.log (LogEntry.startFailed databaseUnreachable), Event.exit 1] := by
      apply eventsSince_append
      simp [startup, hg, consoleWrite, World.emit, htr]
    have hfalse : listenCalled
        (es ++ [Event.log (LogEntry.startFailed databaseUnreachable), Event.exit 1]) = false := by
      rw [listenCalled_append, hno]
      rfl
    rw [hs, hev]
    refine ⟨?_, hno, ⟨_, rfl⟩, fun _ => ⟨rfl, hfalse⟩⟩
    rw [hfalse]
    constructor
    · intro h
      cases h
    · intro h
      cases h

/-- An instance of C7: against an unreachable database the process makes its 15 attempts,
logs the failure and exits with status 1, and `app.listen` is never called. -/
theorem startup_listens_iff_witness :
    (waitForDb envDown (some 15) (some 2000) World.init).1 = .error databaseUnreachable ∧
    eventsSince World.init (startup envDown World.init)
      = eventsSince World.init (waitForDb envDown (some 15) (some 2000) World.init).2
          ++ [Event.log (LogEntry.startFailed databaseUnreachable), Event.exit 1] ∧
    listenCalled (eventsSince World.init (startup envDown World.init)) = false :=
  ⟨rfl, (startup_listens_iff envDown World.init).2.2.2 rfl⟩

/-! ## The query executor: lemmas and claims -/

theorem runQuery_acquire_fails (env : Env) (sql : String) (params : Option (List JsVal))
    (w : World) (e : JsError) (h : env.connect w.connects = some e) :
    runQuery env sql params w
      = (.error e, { w with connects := w.connects + 1,
                            trace := w.trace ++ [Event.connect (some e)] }) := by
  simp [runQuery, poolConnect, h]

theorem runQuery_acquired (env : Env) (sql : String) (params : Option (List JsVal))
    (w : World) (h : env.connect w.connects = none) :
    runQuery env sql params w
      = (env.query w.queries sql (params.getD []),
         { checkedOut := w.checkedOut + 1 - 1,
           connects := w.connects + 1,
           queries := w.queries + 1,
           trace := w.trace ++ [Event.connect none,
             Event.query sql (params.getD []) (env.query w.queries sql (params.getD [])),
             Event.release] }) := by
  simp [runQuery, poolConnect, clientQuery, clientRelease, h]

/-- C5: when the acquisition succeeds, `runQuery` issues the statement exactly once, releases
the connection exactly once after it (so the number of checked-out connections is what it
was before), and hands back what the database answered: its rows in order, or its error.
When the acquisition fails, nothing is issued or released and the error is propagated. -/
theorem runQuery_releases_once (env : Env) (sql : String) (params : Option (List JsVal))
    (w : World) :
    (env.connect w.connects = none →
      (runQuery env sql params w).1 = env.query w.queries sql (params.getD []) ∧
      eventsSince w (runQuery env sql params w).2
        = [Event.connect none,
           Event.query sql (params.getD []) (env.query w.queries sql (params.getD [])),
           Event.release] ∧
      releases (eventsSince w (runQuery env sql params w).2) = 1 ∧
      statements (eventsSince w (runQuery env sql params w).2) = [(sql, params.getD [])] ∧
      (runQuery env sql params w).2.checkedOut = w.checkedOut) ∧
    (∀ e, env.connect w.connects = some e →
      (runQuery env sql params w).1 = .error e ∧
      eventsSince w (runQuery env sql params w).2 = [Event.connect (some e)] ∧
      releases (eventsSince w (runQuery env sql params w).2) = 0 ∧
      statements (eventsSince w (runQuery env sql params w).2) = [] ∧
      (runQuery env sql params w).2.checkedOut = w.checkedOut) := by
  constructor
  · intro h
    have hev : eventsSince w (runQuery env sql params w).2
        = [Event.connect none,
           Event.query sql (params.getD []) (env.query w.queries sql (params.getD [])),
           Event.release] := by
      apply eventsSince_append
      rw [runQuery_acquired env sql params w h]
    refine ⟨by rw [runQuery_acquired env sql params w h], hev, ?_, ?_, ?_⟩
    · rw [hev]
      rfl
    · rw [hev]
      rfl
    · rw [runQuery_acquired env sql params w h]
      simp
  · intro e h
    have hev : eventsSince w (runQuery env sql params w).2 = [Event.connect (some e)] := by
      apply eventsSince_append
      rw [runQuery_acquire_fails env sql params w e h]
    refine ⟨by rw [runQuery_acquire_fails env sql params w e h], hev, ?_, ?_, ?_⟩
    · rw [hev]
      rfl
    · rw [hev]
      rfl
    · rw [runQuery_acquire_fails env sql params w e h]

/-- Two instances of C5: a statement that fails on an acquired connection is issued once
and the connection released once before the error is handed back; a failed acquisition
releases nothing. -/
theorem runQuery_releases_once_witness :
    (runQuery (envQueryFails "boom") sqlListCustomers none World.init).1
      = .error (JsError.driver "boom") ∧
    eventsSince World.init (runQuery (envQueryFails "boom") sqlListCustomers none World.init).2
      = [Event.connect none,
         Event.query sqlListCustomers [] (.error (JsError.driver "boom")),
         Event.release] ∧
    (runQuery (envQueryFails "boom") sqlListCustomers none World.init).2.checkedOut = 0 ∧
    (runQuery envDown sqlListCustomers none World.init).1 = .error connRefused ∧
    releases (eventsSince World.init (runQuery envDown sqlListCustomers none World.init).2) = 0 :=
  have h := (runQuery_releases_once (envQueryFails "boom") sqlListCustomers none World.init).1 rfl
  have h1 := (runQuery_releases_once envDown sqlListCustomers none World.init).2 connRefused rfl
  ⟨h.1, h.2.1, h.2.2.2.2, h1.1, h1.2.2.1⟩

/-! ## The route handlers: lemmas and claims -/

theorem eventsSince_self (w : World) : eventsSince w w = [] := by
  simp [eventsSince]

/-- C1: the response of `GET /v1/customers/:id` is decided by its one `runQuery` call: no row
gives 404 with the body `{"error":"Not found"}`, at least one row gives 200 with the first
row, and the response is 500 exactly when the call fails. -/
theorem getCustomer_response (env : Env) (req : Request) (w : World) :
    (getCustomer env req w).2 = (runQuery env sqlGetCustomer (some [req.paramsId]) w).2 ∧
    ((runQuery env sqlGetCustomer (some [req.paramsId]) w).1 = .ok [] →
      (getCustomer env req w).1 = Outcome.responded 404 (errorBody "Not found")) ∧
    (∀ row rest, (runQuery env sqlGetCustomer (some [req.paramsId]) w).1 = .ok (row :: rest) →
      (getCustomer env req w).1 = Outcome.responded 200 (JsVal.obj row)) ∧
    (∀ e, (runQuery env sqlGetCustomer (some [req.paramsId]) w).1 = .error e →
      (getCustomer env req w).1
        = Outcome.responded 500 (errorBody "Failed to fetch customer")) ∧
    (∀ body, (getCustomer env req w).1 = Outcome.responded 500 body →
      ∃ e, (runQuery env sqlGetCustomer (some [req.paramsId]) w).1 = .error e) := by
  rcases h : runQuery env sqlGetCustomer (some [req.paramsId]) w with ⟨res, w1⟩
  cases res with
  | error e => simp [getCustomer, h]
  | ok rows =>
    cases rows with
    | nil => simp [getCustomer, h]
    | cons row rest => simp [getCustomer, h, firstRow]

/-- The scenario of the specification for C1: `GET /v1/customers/99999` on a healthy
database without that row answers 404 with the body `{"error":"Not found"}`. -/
theorem getCustomer_response_witness :
    (runQuery envNoRows sqlGetCustomer
      (some [(mkRequest "99999" JsVal.undefined).paramsId]) World.init).1 = .ok [] ∧
    (getCustomer envNoRows (mkRequest "99999" JsVal.undefined) World.init).1
      = Outcome.responded 404 (JsVal.obj [("error", JsVal.str "Not found")]) :=
  ⟨rfl, (getCustomer_response envNoRows (mkRequest "99999" JsVal.undefined) World.init).2.1 rfl⟩

/-- Every handler run has one of four shapes: no effect at all; a failed acquisition; a failed
statement; a successful statement.  In the two failure shapes the response is the 500 of the
route, and the only further effects are `console.error` lines for that error. -/
theorem handle_run (route : Route) (env : Env) (req : Request) (w : World) :
    (eventsSince w (handle route env req w).2 = [] ∧
      (route = Route.healthz ∨
        (req.body.isNullish = true ∧
          (handle route env req w).1 = Outcome.threw destructureError))) ∨
    (∃ e logs, eventsSince w (handle route env req w).2 = Event.connect (some e) :: logs ∧
      (∀ ev, ev ∈ logs → ev = Event.log (LogEntry.error e)) ∧
      (handle route env req w).1
        = Outcome.responded 500 (errorBody (failureMessage route))) ∨
    (∃ e logs, eventsSince w (handle route env req w).2
        = Event.connect none
            :: Event.query (statementOf route) (positionalParams route req) (.error e)
            :: Event.release :: logs ∧
      (∀ ev, ev ∈ logs → ev = Event.log (LogEntry.error e)) ∧
      (handle route env req w).1
        = Outcome.responded 500 (errorBody (failureMessage route))) ∨
    (∃ rows, eventsSince w (handle route env req w).2
        = [Event.connect none,
           Event.query (statementOf route) (positionalParams route req) (.ok rows),
           Event.release] ∧
      ∃ status body, (handle route env req w).1 = Outcome.responded status body ∧
        status ≠ 500) := by
  cases route
  case healthz =>
    left
    exact ⟨eventsSince_self w, Or.inl rfl⟩
  case listCustomers =>
    cases hc : env.connect w.connects with
    | some e =>
      right; left
      refine ⟨e, [Event.log (LogEntry.error e)], ?_, by simp, ?_⟩
      · simp [handle, listCustomers, runQuery, poolConnect, consoleWrite, World.emit,
          eventsSince, hc]
      · simp [handle, listCustomers, runQuery, poolConnect, hc, failureMessage]
    | none =>
      cases hq : env.query w.queries sqlListCustomers [] with
      | error e =>
        right; right; left
        refine ⟨e, [Event.log (LogEntry.error e)], ?_, by simp, ?_⟩
        · simp [handle, listCustomers, runQuery, poolConnect, clientQuery, clientRelease,
            consoleWrite, World.emit, eventsSince, hc, hq, statementOf, positionalParams]
        · simp [handle, listCustomers, runQuery, poolConnect, clientQuery, clientRelease,
            hc, hq, failureMessage]
      | ok rows =>
        right; right; right
        refine ⟨rows, ?_, 200, rowsJson rows, ?_, by decide⟩
        · simp [handle, listCustomers, runQuery, poolConnect, clientQuery, clientRelease,
            eventsSince, hc, hq, statementOf, positionalParams]
        · simp [handle, listCustomers, runQuery, poolConnect, clientQuery, clientRelease,
            hc, hq]
  case getCustomer =>
    cases hc : env.connect w.connects with
    | some e =>
      right; left
      refine ⟨e, [], ?_, by simp, ?_⟩
      · simp [handle, getCustomer, runQuery, poolConnect, consoleWrite, World.emit,
          eventsSince, hc, failureMessage]
      · simp [handle, getCustomer, runQuery, poolConnect, consoleWrite, World.emit,
          eventsSince, hc, failureMessage]
    | none =>
      cases hq : env.query w.queries sqlGetCustomer [req.paramsId] with
      | error e =>
        right; right; left
        refine ⟨e, [], ?_, by simp, ?_⟩
        · simp [handle, getCustomer, runQuery, poolConnect, clientQuery, clientRelease,
          consoleWrite, World.emit, eventsSince, hc, hq, statementOf, positionalParams,
          failureMessage]
        · simp [handle, getCustomer, runQuery, poolConnect, clientQuery, clientRelease,
          consoleWrite, World.emit, eventsSince, hc, hq, statementOf, positionalParams,
          failureMessage]
      | ok rows =>
        right; right; right
        cases rows with
        | nil =>
          refine ⟨[], ?_, 404, errorBody "Not found", ?_, by decide⟩
          · simp [handle, getCustomer, runQuery, poolConnect, clientQuery, clientRelease,
          consoleWrite, World.emit, eventsSince, hc, hq, statementOf, positionalParams,
          failureMessage]
          · simp [handle, getCustomer, runQuery, poolConnect, clientQuery, clientRelease,
          consoleWrite, World.emit, eventsSince, hc, hq, statementOf, positionalParams,
          failureMessage]
        | cons row rest =>
          refine ⟨row :: rest, ?_, 200, JsVal.obj row, ?_, by decide⟩
          · simp [handle, getCustomer, runQuery, poolConnect, clientQuery, clientRelease,
          consoleWrite, World.emit, eventsSince, hc, hq, statementOf, positionalParams,
          failureMessage, firstRow]
          · simp [handle, getCustomer, runQuery, poolConnect, clientQuery, clientRelease,
          consoleWrite, World.emit, eventsSince, hc, hq, statementOf, positionalParams,
          failureMessage, firstRow]
  case listAddresses =>
    cases hc : env.connect w.connects with
    | some e =>
      right; left
      refine ⟨e, [], ?_, by simp, ?_⟩
      · simp [handle, listAddresses, runQuery, poolConnect, consoleWrite, World.emit,
          eventsSince, hc, failureMessage]
      · simp [handle, listAddresses, runQuery, poolConnect, consoleWrite, World.emit,
          eventsSince, hc, failureMessage]
    | none =>
      cases hq : env.query w.queries sqlListAddresses [req.paramsId] with
      | error e =>
        right; right; left
        refine ⟨e, [], ?_, by simp, ?_⟩
        · simp [handle, listAddresses, runQuery, poolConnect, clientQuery, clientRelease,
          consoleWrite, World.emit, eventsSince, hc, hq, statementOf, positionalParams,
          failureMessage]
        · simp [handle, listAddresses, runQuery, poolConnect, clientQuery, clientRelease,
          consoleWrite, World.emit, eventsSince, hc, hq, statementOf, positionalParams,
          failureMessage]
      | ok rows =>
        right; right; right
        refine ⟨rows, ?_, 200, rowsJson rows, ?_, by decide⟩
        · simp [handle, listAddresses, runQuery, poolConnect, clientQuery, clientRelease,
          consoleWrite, World.emit, eventsSince, hc, hq, statementOf, positionalParams,
          failureMessage]
        · simp [handle, listAddresses, runQuery, poolConnect, clientQuery, clientRelease,
          consoleWrite, World.emit, eventsSince, hc, hq, statementOf, positionalParams,
          failureMessage]
  case createCustomer =>
    cases hb : req.body.isNullish with
    | true =>
      left
      refine ⟨?_, Or.inr ⟨rfl, ?_⟩⟩
      · simp [handle, createCustomer, hb, eventsSince]
      · simp [handle, createCustomer, hb]
    | false =>
      cases hc : env.connect w.connects with
      | some e =>
        right; left
        refine ⟨e, [Event.log (LogEntry.error e)], ?_, by simp, ?_⟩
        · simp [handle, createCustomer, runQuery, poolConnect, consoleWrite, World.emit,
            eventsSince, hc, failureMessage, hb]
        · simp [handle, createCustomer, runQuery, poolConnect, consoleWrite, World.emit,
            eventsSince, hc, failureMessage, hb]
      | none =>
        cases hq : env.query w.queries sqlInsertCustomer
          [req.body.getField "name", req.body.getField "email", req.body.getField "phone"] with
        | error e =>
          right; right; left
          refine ⟨e, [Event.log (LogEntry.error e)], ?_, by simp, ?_⟩
          · simp [handle, createCustomer, runQuery, poolConnect, clientQuery, clientRelease,
            consoleWrite, World.emit, eventsSince, hc, hq, statementOf, positionalParams,
            failureMessage, hb]
          · simp [handle, createCustomer, runQuery, poolConnect, clientQuery, clientRelease,
            consoleWrite, World.emit, eventsSince, hc, hq, statementOf, positionalParams,
            failureMessage, hb]
        | ok rows =>
          right; right; right
          refine ⟨rows, ?_, 201, firstRow rows, ?_, by decide⟩
          · simp [handle, createCustomer, runQuery, poolConnect, clientQuery, clientRelease,
            consoleWrite, World.emit, eventsSince, hc, hq, statementOf, positionalParams,
            failureMessage, hb]
          · simp [handle, createCustomer, runQuery, poolConnect, clientQuery, clientRelease,
            consoleWrite, World.emit, eventsSince, hc, hq, statementOf, positionalParams,
            failureMessage, hb]
  case addAddress =>
    cases hb : req.body.isNullish with
    | true =>
      left
      refine ⟨?_, Or.inr ⟨rfl, ?_⟩⟩
      · simp [handle, addAddress, hb, eventsSince]
      · simp [handle, addAddress, hb]
    | false =>
      cases hc : env.connect w.connects with
      | some e =>
        right; left
        refine ⟨e, [Event.log (LogEntry.error e)], ?_, by simp, ?_⟩
        · simp [handle, addAddress, runQuery, poolConnect, consoleWrite, World.emit,
            eventsSince, hc, failureMessage, hb]
        · simp [handle, addAddress, runQuery, poolConnect, consoleWrite, World.emit,
            eventsSince, hc, failureMessage, hb]
      | none =>
        cases hq : env.query w.queries sqlInsertAddress
          [req.paramsId, req.body.getField "line1", req.body.getField "area",
           req.body.getField "city", req.body.getField "pincode"] with
        | error e =>
          right; right; left
          refine ⟨e, [Event.log (LogEntry.error e)], ?_, by simp, ?_⟩
          · simp [handle, addAddress, runQuery, poolConnect, clientQuery, clientRelease,
            consoleWrite, World.emit, eventsSince, hc, hq, statementOf, positionalParams,
            failureMessage, hb]
          · simp [handle, addAddress, runQuery, poolConnect, clientQuery, clientRelease,
            consoleWrite, World.emit, eventsSince, hc, hq, statementOf, positionalParams,
            failureMessage, hb]
        | ok rows =>
          right; right; right
          refine ⟨rows, ?_, 201, firstRow rows, ?_, by decide⟩
          · simp [handle, addAddress, runQuery, poolConnect, clientQuery, clientRelease,
            consoleWrite, World.emit, eventsSince, hc, hq, statementOf, positionalParams,
            failureMessage, hb]
          · simp [handle, addAddress, runQuery, poolConnect, clientQuery, clientRelease,
            consoleWrite, World.emit, eventsSince, hc, hq, statementOf, positionalParams,
            failureMessage, hb]

theorem statements_of_logs (e : JsError) (logs : List Event)
    (h : ∀ ev, ev ∈ logs → ev = Event.log (LogEntry.error e)) : statements logs = [] := by
  induction logs with
  | nil => rfl
  | cons ev rest ih =>
    have hev := h ev (List.mem_cons_self ev rest)
    have hrest := ih (fun x hx => h x (List.mem_cons_of_mem ev hx))
    simp only [statements] at hrest
    subst hev
    simp [statements, Event.statement?, hrest]

/-- A handler run in which `runQuery` raised an error ends with the 500 response of the
route. -/
theorem handle_failure (route : Route) (env : Env) (req : Request) (w : World) (e : JsError)
    (h : RaisedByRunQuery e (eventsSince w (handle route env req w).2)) :
    (handle route env req w).1 = Outcome.responded 500 (errorBody (failureMessage route)) := by
  rcases handle_run route env req w with ⟨hev, _⟩ | ⟨_, _, _, _, hres⟩ | ⟨_, _, _, _, hres⟩
    | ⟨rows, hev, _⟩
  · rw [hev] at h
    simp [RaisedByRunQuery] at h
  · exact hres
  · exact hres
  · rw [hev] at h
    simp [RaisedByRunQuery] at h

/-- C6: whenever `runQuery` raises an error during a run of a route handler, the handler does
not throw: it answers with status 500 and the fixed message of its route, the same for any
two errors, requests and database states. -/
theorem handler_failure_is_generic (route : Route) (env env1 : Env) (req req1 : Request)
    (w w1 : World) (e e1 : JsError)
    (h : RaisedByRunQuery e (eventsSince w (handle route env req w).2))
    (h1 : RaisedByRunQuery e1 (eventsSince w1 (handle route env1 req1 w1).2)) :
    (handle route env req w).1 = Outcome.responded 500 (errorBody (failureMessage route)) ∧
    (handle route env req w).1 = (handle route env1 req1 w1).1 := by
  have hr := handle_failure route env req w e h
  have hr1 := handle_failure route env1 req1 w1 e1 h1
  exact ⟨hr, by rw [hr, hr1]⟩

/-- An instance of C6: `POST /v1/customers` with an empty body object answers a refused
connection and a failing statement with the same response, 500 `{"error":"Insert failed"}`. -/
theorem handler_failure_is_generic_witness :
    RaisedByRunQuery connRefused
      (eventsSince World.init
        (handle Route.createCustomer envDown (mkRequest "" (JsVal.obj [])) World.init).2) ∧
    RaisedByRunQuery (JsError.driver "null value in column name")
      (eventsSince World.init
        (handle Route.createCustomer (envQueryFails "null value in column name")
          (mkRequest "" (JsVal.obj [])) World.init).2) ∧
    (handle Route.createCustomer envDown (mkRequest "" (JsVal.obj [])) World.init).1
      = Outcome.responded 500 (JsVal.obj [("error", JsVal.str "Insert failed")]) ∧
    (handle Route.createCustomer envDown (mkRequest "" (JsVal.obj [])) World.init).1
      = (handle Route.createCustomer (envQueryFails "null value in column name")
          (mkRequest "" (JsVal.obj [])) World.init).1 :=
  have h : RaisedByRunQuery connRefused
      (eventsSince World.init
        (handle Route.createCustomer envDown (mkRequest "" (JsVal.obj [])) World.init).2) :=
    Or.inl (List.Mem.head _)
  have h1 : RaisedByRunQuery (JsError.driver "null value in column name")
      (eventsSince World.init
        (handle Route.createCustomer (envQueryFails "null value in column name")
          (mkRequest "" (JsVal.obj [])) World.init).2) :=
    Or.inr ⟨_, _, List.Mem.tail _ (List.Mem.head _)⟩
  ⟨h, h1, handler_failure_is_generic Route.createCustomer envDown
    (envQueryFails "null value in column name") (mkRequest "" (JsVal.obj []))
    (mkRequest "" (JsVal.obj [])) World.init World.init _ _ h h1⟩

/-- C9: every statement a route handler issues has the fixed text of its route, whatever the
request: two runs of one route on any two requests issue the same text, and the values of
the request appear only in the list of positional parameters. -/
theorem statement_text_is_fixed (route : Route) (env env1 : Env) (req req1 : Request)
    (w w1 : World) (q q1 : String × List JsVal)
    (hq : q ∈ statements (eventsSince w (handle route env req w).2))
    (hq1 : q1 ∈ statements (eventsSince w1 (handle route env1 req1 w1).2)) :
    q.1 = q1.1 ∧ q.1 = statementOf route ∧ q.2 = positionalParams route req := by
  have key : ∀ (env : Env) (req : Request) (w : World) (q : String × List JsVal),
      q ∈ statements (eventsSince w (handle route env req w).2) →
      q = (statementOf route, positionalParams route req) := by
    intro env req w q hq
    rcases handle_run route env req w with ⟨hev, _⟩ | ⟨e, logs, hev, hlogs, _⟩
      | ⟨e, logs, hev, hlogs, _⟩ | ⟨rows, hev, _⟩
    · rw [hev] at hq
      simp [statements] at hq
    · have hl := statements_of_logs e logs hlogs
      simp only [statements] at hl
      rw [hev] at hq
      simp [statements, Event.statement?, hl] at hq
    · have hl := statements_of_logs e logs hlogs
      simp only [statements] at hl
      rw [hev] at hq
      simp [statements, Event.statement?, hl] at hq
      exact hq
    · rw [hev] at hq
      simp [statements, Event.statement?] at hq
      exact hq
  have h := key env req w q hq
  have h1 := key env1 req1 w1 q1 hq1
  rw [h, h1]
  exact ⟨rfl, rfl, rfl⟩

/-- An instance of C9: looking up the ids `1` and `1 OR 1=1` sends the same statement text;
the ids travel as the parameter `$1`. -/
theorem statement_text_is_fixed_witness :
    (sqlGetCustomer, [JsVal.str "1"])
      ∈ statements (eventsSince World.init
          (handle Route.getCustomer envNoRows (mkRequest "1" JsVal.undefined) World.init).2) ∧
    (sqlGetCustomer, [JsVal.str "1 OR 1=1"])
      ∈ statements (eventsSince World.init
          (handle Route.getCustomer envAnn (mkRequest "1 OR 1=1" JsVal.undefined)
            World.init).2) ∧
    (sqlGetCustomer, [JsVal.str "1"]).1 = (sqlGetCustomer, [JsVal.str "1 OR 1=1"]).1 :=
  have h : (sqlGetCustomer, [JsVal.str "1"])
      ∈ statements (eventsSince World.init
          (handle Route.getCustomer envNoRows (mkRequest "1" JsVal.undefined) World.init).2) :=
    List.Mem.head _
  have h1 : (sqlGetCustomer, [JsVal.str "1 OR 1=1"])
      ∈ statements (eventsSince World.init
          (handle Route.getCustomer envAnn (mkRequest "1 OR 1=1" JsVal.undefined)
            World.init).2) :=
    List.Mem.head _
  ⟨h, h1, (statement_text_is_fixed Route.getCustomer envNoRows envAnn
    (mkRequest "1" JsVal.undefined) (mkRequest "1 OR 1=1" JsVal.undefined)
    World.init World.init _ _ h h1).1⟩

/-- C8 (as the code has it): for every request whose body is not `undefined` or `null`, each POST
handler makes exactly one `runQuery` call, passing its `INSERT ... RETURNING *` statement with
the positional parameters `[name, email, phone]`, respectively
`[path id, line1, area, city, pincode]`, taken from the request unchecked; when the call
succeeds the response is 201 with the first returned row as body. -/
theorem post_handlers_insert_once (env : Env) (req : Request) (w : World)
    (hbody : req.body.isNullish = false) :
    (connectAttempts (eventsSince w (createCustomer env req w).2) = 1 ∧
      (∃ logs, eventsSince w (createCustomer env req w).2
          = eventsSince w (runQuery env sqlInsertCustomer (some [req.body.getField "name", req.body.getField "email", req.body.getField "phone"]) w).2 ++ logs ∧
        connectAttempts logs = 0 ∧ statements logs = []) ∧
      (∀ rows, (runQuery env sqlInsertCustomer (some [req.body.getField "name", req.body.getField "email", req.body.getField "phone"]) w).1 = .ok rows →
        (createCustomer env req w).1 = Outcome.responded 201 (firstRow rows) ∧
        statements (eventsSince w (createCustomer env req w).2) = [(sqlInsertCustomer, [req.body.getField "name", req.body.getField "email", req.body.getField "phone"])]) ∧
      (∀ row rest, (runQuery env sqlInsertCustomer (some [req.body.getField "name", req.body.getField "email", req.body.getField "phone"]) w).1 = .ok (row :: rest) →
        (createCustomer env req w).1 = Outcome.responded 201 (JsVal.obj row))) ∧
    (connectAttempts (eventsSince w (addAddress env req w).2) = 1 ∧
      (∃ logs, eventsSince w (addAddress env req w).2
          = eventsSince w (runQuery env sqlInsertAddress (some [req.paramsId, req.body.getField "line1", req.body.getField "area", req.body.getField "city", req.body.getField "pincode"]) w).2 ++ logs ∧
        connectAttempts logs = 0 ∧ statements logs = []) ∧
      (∀ rows, (runQuery env sqlInsertAddress (some [req.paramsId, req.body.getField "line1", req.body.getField "area", req.body.getField "city", req.body.getField "pincode"]) w).1 = .ok rows →
        (addAddress env req w).1 = Outcome.responded 201 (firstRow rows) ∧
        statements (eventsSince w (addAddress env req w).2) = [(sqlInsertAddress, [req.paramsId, req.body.getField "line1", req.body.getField "area", req.body.getField "city", req.body.getField "pincode"])]) ∧
      (∀ row rest, (runQuery env sqlInsertAddress (some [req.paramsId, req.body.getField "line1", req.body.getField "area", req.body.getField "city", req.body.getField "pincode"]) w).1 = .ok (row :: rest) →
        (addAddress env req w).1 = Outcome.responded 201 (JsVal.obj row))) ∧
    isInsertReturning sqlInsertCustomer = true ∧ isInsertReturning sqlInsertAddress = true := by
  refine ⟨?_, ?_, by decide, by decide⟩
  ·
    cases hc : env.connect w.connects with
    | some e =>
      refine ⟨?_, ⟨[Event.log (LogEntry.error e)], ?_, rfl, rfl⟩, ?_, ?_⟩
      all_goals simp [createCustomer, hbody, runQuery, poolConnect, clientQuery, clientRelease, consoleWrite,
        World.emit, eventsSince, connectAttempts, statements, Event.isConnect,
        Event.statement?, firstRow, hc]
    | none =>
      cases hq : env.query w.queries sqlInsertCustomer
          [req.body.getField "name", req.body.getField "email", req.body.getField "phone"] with
      | error e =>
        refine ⟨?_, ⟨[Event.log (LogEntry.error e)], ?_, rfl, rfl⟩, ?_, ?_⟩
        all_goals simp [createCustomer, hbody, runQuery, poolConnect, clientQuery, clientRelease, consoleWrite,
        World.emit, eventsSince, connectAttempts, statements, Event.isConnect,
        Event.statement?, firstRow, hc, hq]
      | ok rows =>
        refine ⟨?_, ⟨[], ?_, rfl, rfl⟩, ?_, ?_⟩
        · simp [createCustomer, hbody, runQuery, poolConnect, clientQuery, clientRelease, consoleWrite,
          World.emit, eventsSince, connectAttempts, statements, Event.isConnect,
          Event.statement?, firstRow, hc, hq]
        · simp [createCustomer, hbody, runQuery, poolConnect, clientQuery, clientRelease, consoleWrite,
          World.emit, eventsSince, connectAttempts, statements, Event.isConnect,
          Event.statement?, firstRow, hc, hq]
        · simp [createCustomer, hbody, runQuery, poolConnect, clientQuery, clientRelease, consoleWrite,
          World.emit, eventsSince, connectAttempts, statements, Event.isConnect,
          Event.statement?, firstRow, hc, hq]
        · intro row rest hrows
          have hr : rows = row :: rest := by
            simpa [runQuery, poolConnect, clientQuery, clientRelease, hc, hq] using hrows
          subst hr
          simp [createCustomer, hbody, runQuery, poolConnect, clientQuery, clientRelease, consoleWrite,
            World.emit, eventsSince, connectAttempts, statements, Event.isConnect,
            Event.statement?, firstRow, hc, hq]
  ·
    cases hc : env.connect w.connects with
    | some e =>
      refine ⟨?_, ⟨[Event.log (LogEntry.error e)], ?_, rfl, rfl⟩, ?_, ?_⟩
      all_goals simp [addAddress, hbody, runQuery, poolConnect, clientQuery, clientRelease, consoleWrite,
        World.emit, eventsSince, connectAttempts, statements, Event.isConnect,
        Event.statement?, firstRow, hc]
    | none =>
      cases hq : env.query w.queries sqlInsertAddress
          [req.paramsId, req.body.getField "line1", req.body.getField "area", req.body.getField "city", req.body.getField "pincode"] with
      | error e =>
        refine ⟨?_, ⟨[Event.log (LogEntry.error e)], ?_, rfl, rfl⟩, ?_, ?_⟩
        all_goals simp [addAddress, hbody, runQuery, poolConnect, clientQuery, clientRelease, consoleWrite,
        World.emit, eventsSince, connectAttempts, statements, Event.isConnect,
        Event.statement?, firstRow, hc, hq]
      | ok rows =>
        refine ⟨?_, ⟨[], ?_, rfl, rfl⟩, ?_, ?_⟩
        · simp [addAddress, hbody, runQuery, poolConnect, clientQuery, clientRelease, consoleWrite,
          World.emit, eventsSince, connectAttempts, statements, Event.isConnect,
          Event.statement?, firstRow, hc, hq]
        · simp [addAddress, hbody, runQuery, poolConnect, clientQuery, clientRelease, consoleWrite,
          World.emit, eventsSince, connectAttempts, statements, Event.isConnect,
          Event.statement?, firstRow, hc, hq]
        · simp [addAddress, hbody, runQuery, poolConnect, clientQuery, clientRelease, consoleWrite,
          World.emit, eventsSince, connectAttempts, statements, Event.isConnect,
          Event.statement?, firstRow, hc, hq]
        · intro row rest hrows
          have hr : rows = row :: rest := by
            simpa [runQuery, poolConnect, clientQuery, clientRelease, hc, hq] using hrows
          subst hr
          simp [addAddress, hbody, runQuery, poolConnect, clientQuery, clientRelease, consoleWrite,
            World.emit, eventsSince, connectAttempts, statements, Event.isConnect,
            Event.statement?, firstRow, hc, hq]

/-- The scenario of the specification for C8: posting Ann issues the customer insert once with
her three fields as parameters and answers 201 with the row the database returned. -/
theorem post_handlers_insert_once_witness :
    (mkRequest "" (JsVal.obj [("name", JsVal.str "Ann"), ("email", JsVal.str "ann@x.com"),
      ("phone", JsVal.str "555")])).body.isNullish = false ∧
    (createCustomer envAnn
      (mkRequest "" (JsVal.obj [("name", JsVal.str "Ann"), ("email", JsVal.str "ann@x.com"),
        ("phone", JsVal.str "555")])) World.init).1 = Outcome.responded 201 (JsVal.obj annRow) ∧
    statements (eventsSince World.init (createCustomer envAnn
      (mkRequest "" (JsVal.obj [("name", JsVal.str "Ann"), ("email", JsVal.str "ann@x.com"),
        ("phone", JsVal.str "555")])) World.init).2)
      = [(sqlInsertCustomer, [JsVal.str "Ann", JsVal.str "ann@x.com", JsVal.str "555"])] :=
  have h := (post_handlers_insert_once envAnn
    (mkRequest "" (JsVal.obj [("name", JsVal.str "Ann"), ("email", JsVal.str "ann@x.com"),
      ("phone", JsVal.str "555")])) World.init rfl).1.2.2.1 [annRow] rfl
  ⟨rfl, h.1, h.2⟩

/-- C8 as stated fails: on a request whose body is `undefined` both POST handlers throw while
destructuring the body, before the `try` block, and make no `runQuery` call at all. -/
theorem post_without_body_makes_no_query :
    createCustomer envAnn (mkRequest "" JsVal.undefined) World.init
      = (Outcome.threw destructureError, World.init) ∧
    connectAttempts (eventsSince World.init
      (createCustomer envAnn (mkRequest "" JsVal.undefined) World.init).2) = 0 ∧
    addAddress envAnn (mkRequest "1" JsVal.undefined) World.init
      = (Outcome.threw destructureError, World.init) ∧
    connectAttempts (eventsSince World.init
      (addAddress envAnn (mkRequest "1" JsVal.undefined) World.init).2) = 0 :=
  ⟨rfl, rfl, rfl, rfl⟩

/-- C10 fails on the code: when the statement fails, `GET /v1/customers/:id` and
`GET /v1/customers/:id/addresses` answer 500 without writing anything to the log, whereas
`GET /v1/customers` and the POST handlers write the error with `console.error`. -/
theorem fetch_failures_are_not_logged :
    (getCustomer (envQueryFails "boom") (mkRequest "1" JsVal.undefined) World.init).1
      = Outcome.responded 500 (errorBody "Failed to fetch customer") ∧
    loggedErrors (eventsSince World.init
      (getCustomer (envQueryFails "boom") (mkRequest "1" JsVal.undefined) World.init).2) = [] ∧
    (listAddresses (envQueryFails "boom") (mkRequest "1" JsVal.undefined) World.init).1
      = Outcome.responded 500 (errorBody "Failed to fetch addresses") ∧
    loggedErrors (eventsSince World.init
      (listAddresses (envQueryFails "boom") (mkRequest "1" JsVal.undefined) World.init).2) = [] ∧
    loggedErrors (eventsSince World.init
      (listCustomers (envQueryFails "boom") (mkRequest "" JsVal.undefined) World.init).2)
      = [JsError.driver "boom"] ∧
    loggedErrors (eventsSince World.init
      (createCustomer (envQueryFails "boom") (mkRequest "" (JsVal.obj [])) World.init).2)
      = [JsError.driver "boom"] ∧
    loggedErrors (eventsSince World.init
      (addAddress (envQueryFails "boom") (mkRequest "1" (JsVal.obj [])) World.init).2)
      = [JsError.driver "boom"] :=
  ⟨rfl, rfl, rfl, rfl, rfl, rfl, rfl⟩

end CustomerService
